import Mathlib

/-!
Shallow embedding of the opportunity-matching and submission-orchestration
flow of the postulapro-web repository, together with proofs about the
properties its specification states.

The embedding covers:
* `wherex_mass_postulate.py` — the `Product` dataclass, `load_price_list`,
  `find_matching_products` and the `main` entry point;
* `agents/wherex/wherex_bot.py` — `procesar_oportunidades` and the
  submission log row it appends;
* `agents/mercado_publico/mp_bot.py` — `load_config`, `postulate` and
  `process_opportunities`.

Side-effecting collaborators (the Playwright page, the Google-Sheets sink,
the filesystem) are modelled as explicit inputs and outputs: the stream of
opportunity texts is a `List String`, the sheet is the list of appended
rows, the environment is a function `String → Option String`, and the
outcome of the site adapter's submit step is an oracle `String → Bool`.
-/

deriving instance DecidableEq for Except

/-! ### Python string semantics -/

/-- Python `str.lower()` restricted to the ASCII letters that occur in the
repository's data (character-wise lowering). -/
def pyLower (s : String) : String := ⟨s.data.map Char.toLower⟩

/-- Python `a in b` on strings: `a` occurs as a contiguous substring of `b`. -/
def pyIn (a b : String) : Bool := decide (a.data <:+: b.data)

/-- Python truthiness of an optional string: `None` and `""` are falsy. -/
def pyTruthy : Option String → Bool
  | some s => s != ""
  | none => false

/-- Python `a or b` on optional strings: `a` unless it is falsy. -/
def pyOr (a b : Option String) : Option String :=
  if pyTruthy a then a else b

/-- Python `str.strip()` on a character list: drop leading and trailing
whitespace. -/
def pyStrip (cs : List Char) : List Char :=
  ((cs.dropWhile Char.isWhitespace).reverse.dropWhile Char.isWhitespace).reverse

/-- Split a character list into its leading run of decimal digits and the
rest. -/
def splitDigits (cs : List Char) : List Char × List Char :=
  (cs.takeWhile Char.isDigit, cs.dropWhile Char.isDigit)

/-- Value of a run of decimal digits. -/
def digitsVal (cs : List Char) : Nat :=
  cs.foldl (fun a c => a * 10 + (c.toNat - 48)) 0

/-- Consume an optional leading sign. -/
def parseSign : List Char → Int × List Char
  | '-' :: rest => (-1, rest)
  | '+' :: rest => (1, rest)
  | cs => (1, cs)

/-- Python `float(s)` on decimal literals: optional sign, digits with an
optional decimal point, optional exponent, surrounded by optional
whitespace; anything else raises `ValueError`, modelled as `none`.  The
value is kept as an exact rational ("inf"/"nan" and digit underscores
are outside the model; prices in this repository are plain decimals). -/
def pyFloat (s : String) : Option Rat :=
  let cs := pyStrip s.data
  let (sign, cs1) := parseSign cs
  let (ip, cs2) := splitDigits cs1
  let (fp, cs3) :=
    match cs2 with
    | '.' :: rest => splitDigits rest
    | _ => ([], cs2)
  if ip.isEmpty && fp.isEmpty then none
  else
    let m : Int := sign * ((digitsVal ip) * 10 ^ fp.length + digitsVal fp)
    match cs3 with
    | [] => some (mkRat m (10 ^ fp.length))
    | c :: rest =>
      if c = 'e' ∨ c = 'E' then
        let (esign, rest1) := parseSign rest
        let (ed, rest2) := splitDigits rest1
        if ed.isEmpty ∨ ¬ rest2.isEmpty then none
        else
          let e : Int := esign * digitsVal ed
          if 0 ≤ e then some (mkRat (m * 10 ^ e.toNat) (10 ^ fp.length))
          else some (mkRat m (10 ^ fp.length * 10 ^ (-e).toNat))
      else none

namespace WherexMass

/-! ### `wherex_mass_postulate.py` -/

/-- The `Product` dataclass of `wherex_mass_postulate.py`.  `price` is the
exact rational produced by `float(...)`; the attachment paths keep the raw
strings (`Path(...).resolve()` only touches the filesystem). -/
structure Product where
  code : String
  description : String
  brand : String
  category : String
  price : Rat
  image_path : Option String := none
  datasheet_path : Option String := none
deriving DecidableEq, Repr

/-- One CSV row / JSON object of the price-list file, field access modelled
as the partial map the Python `dict` provides (`none` = key absent). -/
structure Row where
  code : Option String := none
  description : Option String := none
  brand : Option String := none
  category : Option String := none
  price : Option String := none
  image_path : Option String := none
  datasheet_path : Option String := none
deriving DecidableEq, Repr

/-- The exceptions `load_price_list` can raise: `KeyError` on a missing
required key, `ValueError` from `float(...)` on a non-numeric price, and
the explicit `ValueError("Unsupported price list format: ...")` on an
unrecognised extension.  The record index is the loop position at which
the exception is raised. -/
inductive LoadError where
  | keyError (field : String) (idx : Nat)
  | valueError (s : String) (idx : Nat)
  | unsupportedFormat (suffix : String)
deriving DecidableEq, Repr

/-- The spec's `MalformedRecord` taxonomy covers the two record-level
exceptions and not the extension-dispatch one. -/
def LoadError.isMalformedRecord : LoadError → Bool
  | .keyError _ _ => true
  | .valueError _ _ => true
  | .unsupportedFormat _ => false

/-- `x if row.get("f") else None`: keep the value only when truthy. -/
def truthyOpt : Option String → Option String
  | some s => if s = "" then none else some s
  | none => none

/-- Build one `Product` from one row.  Each `row["f"]` / `item["f"]`
access raises `KeyError` when the key is absent, in the evaluation order
of the `Product(...)` call in both the CSV and the JSON branch: `code`,
`description`, `brand`, `category`, then `float(row["price"])`. -/
def parseProduct (idx : Nat) (r : Row) : Except LoadError Product :=
  match r.code with
  | none => .error (.keyError "code" idx)
  | some code =>
  match r.description with
  | none => .error (.keyError "description" idx)
  | some description =>
  match r.brand with
  | none => .error (.keyError "brand" idx)
  | some brand =>
  match r.category with
  | none => .error (.keyError "category" idx)
  | some category =>
  match r.price with
  | none => .error (.keyError "price" idx)
  | some priceStr =>
  match pyFloat priceStr with
  | none => .error (.valueError priceStr idx)
  | some v =>
    .ok { code := code, description := description, brand := brand,
          category := category, price := v,
          image_path := truthyOpt r.image_path,
          datasheet_path := truthyOpt r.datasheet_path }

/-- The `for row in reader` / `for item in data` loop: the first raised
exception aborts the whole load. -/
def loadRecords : Nat → List Row → Except LoadError (List Product)
  | _, [] => .ok []
  | idx, r :: rs =>
    match parseProduct idx r with
    | .error e => .error e
    | .ok p =>
      match loadRecords (idx + 1) rs with
      | .error e => .error e
      | .ok ps => .ok (p :: ps)

/-- `load_price_list`: dispatch on `path.suffix.lower()`; the CSV and JSON
branches run the same record loop once the file has been parsed into rows
or objects (`records`). -/
def load_price_list (suffix : String) (records : List Row) :
    Except LoadError (List Product) :=
  let ext := pyLower suffix
  if ext = ".csv" then loadRecords 0 records
  else if ext = ".json" then loadRecords 0 records
  else .error (.unsupportedFormat suffix)

/-- A row on which no exception is raised: the five required keys are
present and the price string parses under `float`. -/
def wellFormed (r : Row) : Bool :=
  r.code.isSome && r.description.isSome && r.brand.isSome && r.category.isSome &&
    (r.price.bind pyFloat).isSome

/-- A row lacking one of the five required keys. -/
def missingRequiredField (r : Row) : Bool :=
  r.code.isNone || r.description.isNone || r.brand.isNone ||
    r.category.isNone || r.price.isNone

/-- `find_matching_products`: for each requested item, every product whose
lowered `code` or lowered `description` occurs in the lowered item text is
appended, in price-list order. -/
def find_matching_products (requested_items : List String)
    (products : List Product) : List Product :=
  match requested_items with
  | [] => []
  | req :: rest =>
    let normalized_req := pyLower req
    products.filter (fun product =>
      pyIn (pyLower product.code) normalized_req ||
        pyIn (pyLower product.description) normalized_req)
      ++ find_matching_products rest products

/-- Observable steps of `main`, in program order: attempting the catalog
load, launching the Chromium browser, and attempting the portal login. -/
inductive Event where
  | loadAttempt
  | browserLaunch
  | loginAttempt
deriving DecidableEq, Repr

/-- How a run of `main` ends: the credentials `RuntimeError`, an exception
from `load_price_list`, or the `NotImplementedError` that `login` always
raises once the network phase is reached. -/
inductive MainOutcome where
  | runtimeError
  | raised (e : LoadError)
  | notImplemented
deriving DecidableEq, Repr

/-- A run of `main`: the events it performed and how it ended. -/
structure MainRun where
  events : List Event
  outcome : MainOutcome
deriving DecidableEq, Repr

/-- `main(price_list_path)`: read `WHEREX_USERNAME` / `WHEREX_PASSWORD`
from the environment, fail when either is falsy, then load the price list,
then open the browser and log in (where `login` raises
`NotImplementedError`). -/
def main (getenv : String → Option String) (suffix : String)
    (records : List Row) : MainRun :=
  let username := getenv "WHEREX_USERNAME"
  let password := getenv "WHEREX_PASSWORD"
  if ¬ pyTruthy username ∨ ¬ pyTruthy password then
    { events := [], outcome := .runtimeError }
  else
    match load_price_list suffix records with
    | .error e => { events := [.loadAttempt], outcome := .raised e }
    | .ok _ =>
      { events := [.loadAttempt, .browserLaunch, .loginAttempt],
        outcome := .notImplemented }

end WherexMass

/-! ### Shared shape of the per-portal bots' price list and log sheet -/

/-- One row of the pandas price-list `DataFrame` used by the portal bots
(columns `Codigo`, `Descripcion`, `Precio`). -/
structure ProdRow where
  codigo : String
  descripcion : String
  precio : String
deriving DecidableEq, Repr

/-- One row appended to the Google Sheet by `register_postulation` /
`registrar_postulacion`.  The wall-clock timestamp column is outside the
model. -/
structure LogRow where
  codigo : String
  descripcion : String
  precio : String
  status : String
deriving DecidableEq, Repr

/-- The matching test both bot loops use:
`prod["Descripcion"].lower() in nombre.lower()`. -/
def descMatches (nombre : String) (prod : ProdRow) : Bool :=
  pyIn (pyLower prod.descripcion) (pyLower nombre)

namespace WherexBot

/-! ### `agents/wherex/wherex_bot.py` -/

/-- The row `registrar_postulacion` appends for a product. -/
def registrar_postulacion (prod : ProdRow) : LogRow :=
  { codigo := prod.codigo, descripcion := prod.descripcion,
    precio := prod.precio, status := "Postulado en Wherex" }

/-- `procesar_oportunidades`: for each opportunity text, scan the price
list in order; at the first product whose lowered description occurs in
the lowered opportunity text, postulate, append one log row and `break`
to the next opportunity.  `postular_oportunidad` is modelled on its
success path (it has no exception handler, so a raised submission error
would abort the whole run — see the mp_bot variant for the caught case). -/
def procesar_oportunidades (opps : List String) (lista_precios : List ProdRow) :
    List LogRow :=
  match opps with
  | [] => []
  | nombre :: rest =>
    match lista_precios.find? (descMatches nombre) with
    | some prod => registrar_postulacion prod :: procesar_oportunidades rest lista_precios
    | none => procesar_oportunidades rest lista_precios

end WherexBot

namespace MpBot

/-! ### `agents/mercado_publico/mp_bot.py` -/

/-- The `[mp]` table of `config.toml` (`user` / `pass` keys, each possibly
absent). -/
structure MpSection where
  user : Option String := none
  pass : Option String := none
deriving DecidableEq, Repr

/-- The `[sheets]` table of `config.toml`. -/
structure SheetsSection where
  sheet_id : Option String := none
deriving DecidableEq, Repr

/-- The `[data]` table of `config.toml`. -/
structure DataSection where
  price_list_path : Option String := none
deriving DecidableEq, Repr

/-- The `[files]` table of `config.toml`. -/
structure FilesSection where
  tech_sheet_dir : Option String := none
deriving DecidableEq, Repr

/-- The parsed `config.toml`, each table possibly absent. -/
structure TomlData where
  mp : Option MpSection := none
  sheets : Option SheetsSection := none
  data : Option DataSection := none
  files : Option FilesSection := none
deriving DecidableEq, Repr

/-- The configuration dictionary `load_config` builds. -/
structure Config where
  MP_USER : Option String
  MP_PASS : Option String
  SHEETS_ID : Option String
  PRICE_LIST_PATH : String
  TECH_SHEET_DIR : String
deriving DecidableEq, Repr

/-- `load_config`: read the five keys from the environment (two with
defaults), then, when `config.toml` exists and `tomllib` is importable
(`toml = some d`), merge it: credentials and sheet id with
`cfg[k] or section.get(k)` (environment wins unless falsy), the two path
keys with `section.get(k, cfg[k])` (the file value wins when present). -/
def load_config (getenv : String → Option String) (toml : Option TomlData) :
    Config :=
  let cfg : Config :=
    { MP_USER := getenv "MP_USER"
      MP_PASS := getenv "MP_PASS"
      SHEETS_ID := getenv "SHEETS_ID"
      PRICE_LIST_PATH := (getenv "PRICE_LIST_PATH").getD "data/lista_precios.csv"
      TECH_SHEET_DIR := (getenv "TECH_SHEET_DIR").getD "fichas_tecnicas" }
  match toml with
  | none => cfg
  | some d =>
    let cfg :=
      match d.mp with
      | some m => { cfg with MP_USER := pyOr cfg.MP_USER m.user,
                             MP_PASS := pyOr cfg.MP_PASS m.pass }
      | none => cfg
    let cfg :=
      match d.sheets with
      | some s => { cfg with SHEETS_ID := pyOr cfg.SHEETS_ID s.sheet_id }
      | none => cfg
    let cfg :=
      match d.data with
      | some dd => { cfg with PRICE_LIST_PATH := dd.price_list_path.getD cfg.PRICE_LIST_PATH }
      | none => cfg
    match d.files with
    | some ff => { cfg with TECH_SHEET_DIR := ff.tech_sheet_dir.getD cfg.TECH_SHEET_DIR }
    | none => cfg

/-- The row `register_postulation` appends for a product. -/
def register_postulation (prod : ProdRow) : LogRow :=
  { codigo := prod.codigo, descripcion := prod.descripcion,
    precio := prod.precio, status := "Postulado en MP" }

/-- `postulate`: attempt the submission steps for `prod`; the whole body
is wrapped in `try/except Exception`, so a raised adapter error is caught
and printed.  The site adapter's outcome is the oracle `submitOk` (keyed
by product code); the returned list is the printed error reports (empty on
success). -/
def postulate (submitOk : String → Bool) (prod : ProdRow) : List String :=
  if submitOk prod.codigo then [] else [prod.codigo]

/-- The observable result of one `process_opportunities` run: the rows
appended to the sheet and the error reports printed by `postulate`.  The
function is total — the run always reaches the end of the opportunity
list. -/
structure MpRun where
  log : List LogRow
  reported : List String
deriving DecidableEq, Repr

/-- `process_opportunities`: for each opportunity text, scan the price
list in order; at the first product whose lowered description occurs in
the lowered text, call `postulate` (which swallows submission errors) and
then — unconditionally — `register_postulation`, and `break` to the next
opportunity. -/
def process_opportunities (submitOk : String → Bool) (opps : List String)
    (price_list : List ProdRow) : MpRun :=
  match opps with
  | [] => { log := [], reported := [] }
  | name :: rest =>
    let tail := process_opportunities submitOk rest price_list
    match price_list.find? (descMatches name) with
    | some prod =>
      { log := register_postulation prod :: tail.log,
        reported := postulate submitOk prod ++ tail.reported }
    | none => tail

end MpBot

/-! ### Concrete inputs used by witnesses and counterexamples -/

/-- A well-formed price-list row. -/
def rowOk : WherexMass.Row :=
  { code := some "A1", description := some "Detergente 5L", brand := some "Marca",
    category := some "Aseo", price := some "10000" }

/-- A row whose price is the negative decimal `-5`. -/
def rowNeg : WherexMass.Row :=
  { code := some "A1", description := some "Detergente 5L", brand := some "Marca",
    category := some "Aseo", price := some "-5" }

/-- The product `load_price_list` builds from `rowNeg`. -/
def prodNeg : WherexMass.Product :=
  { code := "A1", description := "Detergente 5L", brand := "Marca",
    category := "Aseo", price := mkRat (-5) 1 }

/-- A row whose price string is not numeric. -/
def rowBadPrice : WherexMass.Row :=
  { code := some "A1", description := some "Detergente 5L", brand := some "Marca",
    category := some "Aseo", price := some "abc" }

/-- A row missing the required `brand` key. -/
def rowMissingBrand : WherexMass.Row :=
  { code := some "A1", description := some "Detergente 5L",
    category := some "Aseo", price := some "10000" }

/-- A catalog product whose description strictly extends an opportunity
text. -/
def prodLargo : WherexMass.Product :=
  { code := "A1", description := "Detergente Industrial 5L", brand := "Marca",
    category := "Aseo", price := 10000 }

/-- An environment with every wherEX credential set. -/
def envCreds : String → Option String := fun _ => some "x"

/-- An environment with nothing set. -/
def envEmpty : String → Option String := fun _ => none

/-- An environment that sets only `PRICE_LIST_PATH`. -/
def envPriceOnly : String → Option String :=
  fun k => if k = "PRICE_LIST_PATH" then some "env/lista.csv" else none

/-- A `config.toml` that sets only the two path keys. -/
def tomlPaths : MpBot.TomlData :=
  { data := some { price_list_path := some "toml/lista.csv" },
    files := some { tech_sheet_dir := some "toml/fichas" } }

/-- An environment that sets all five mp_bot keys. -/
def envFullMp : String → Option String := fun k =>
  if k = "MP_USER" then some "user-env"
  else if k = "MP_PASS" then some "pass-env"
  else if k = "SHEETS_ID" then some "sheet-env"
  else if k = "PRICE_LIST_PATH" then some "env/lista.csv"
  else if k = "TECH_SHEET_DIR" then some "env/fichas"
  else none

/-- A `config.toml` that sets a value for every key. -/
def tomlFullMp : MpBot.TomlData :=
  { mp := some { user := some "user-toml", pass := some "pass-toml" },
    sheets := some { sheet_id := some "sheet-toml" },
    data := some { price_list_path := some "toml/lista.csv" },
    files := some { tech_sheet_dir := some "toml/fichas" } }

/-- A one-product pandas price list. -/
def plDetergente : List ProdRow :=
  [{ codigo := "A1", descripcion := "detergente", precio := "10000" }]

/-- A two-product pandas price list, both products relevant to a cleaning
tender. -/
def plDetergenteCloro : List ProdRow :=
  [{ codigo := "A1", descripcion := "detergente", precio := "1000" },
   { codigo := "B2", descripcion := "cloro", precio := "2000" }]

/-- A site-adapter oracle on which every submission raises. -/
def failAll : String → Bool := fun _ => false

/-! ### Supporting lemmas about the catalog loader -/

namespace WherexMass

theorem parseProduct_ok (idx : Nat) {r : Row} {c d b k s : String} {v : Rat}
    (hc : r.code = some c) (hd : r.description = some d) (hb : r.brand = some b)
    (hk : r.category = some k) (hs : r.price = some s) (hv : pyFloat s = some v) :
    parseProduct idx r = Except.ok
      { code := c, description := d, brand := b, category := k, price := v,
        image_path := truthyOpt r.image_path,
        datasheet_path := truthyOpt r.datasheet_path } := by
  simp [parseProduct, hc, hd, hb, hk, hs, hv]

theorem parseProduct_isOk_of_wellFormed (idx : Nat) {r : Row}
    (h : wellFormed r = true) :
    ∃ p, parseProduct idx r = Except.ok p ∧ r.code = some p.code := by
  simp only [wellFormed, Bool.and_eq_true, and_assoc, Option.isSome_iff_exists] at h
  obtain ⟨⟨c, hc⟩, ⟨d, hd⟩, ⟨b, hb⟩, ⟨k, hk⟩, ⟨v, hv⟩⟩ := h
  rw [Option.bind_eq_some] at hv
  obtain ⟨s, hs, hv⟩ := hv
  exact ⟨_, parseProduct_ok idx hc hd hb hk hs hv, by simp [hc]⟩

theorem parseProduct_error_isMalformed {idx : Nat} {r : Row} {e : LoadError}
    (h : parseProduct idx r = Except.error e) : e.isMalformedRecord = true := by
  unfold parseProduct at h
  repeat' split at h
  all_goals cases h
  all_goals rfl

theorem parseProduct_ok_not_missing {idx : Nat} {r : Row} {p : Product}
    (h : parseProduct idx r = Except.ok p) : missingRequiredField r = false := by
  obtain ⟨c, d, b, k, pr, i, ds⟩ := r
  cases c <;> cases d <;> cases b <;> cases k <;> cases pr <;>
    simp_all [parseProduct, missingRequiredField]

theorem loadRecords_error_isMalformed {records : List Row} :
    ∀ {idx : Nat} {e : LoadError}, loadRecords idx records = Except.error e →
      e.isMalformedRecord = true := by
  induction records with
  | nil => intro idx e h; simp [loadRecords] at h
  | cons r rs ih =>
    intro idx e h
    cases hp : parseProduct idx r with
    | error e' =>
      simp only [loadRecords, hp] at h
      cases h
      exact parseProduct_error_isMalformed hp
    | ok p =>
      simp only [loadRecords, hp] at h
      cases hl : loadRecords (idx + 1) rs with
      | error e' =>
        rw [hl] at h
        cases h
        exact ih hl
      | ok ps => rw [hl] at h; cases h

theorem loadRecords_ok_not_missing {records : List Row} :
    ∀ {idx : Nat} {ps : List Product}, loadRecords idx records = Except.ok ps →
      ∀ r ∈ records, missingRequiredField r = false := by
  induction records with
  | nil => intro idx ps _ r hr; cases hr
  | cons q rs ih =>
    intro idx ps h r hr
    cases hp : parseProduct idx q with
    | error e =>
      simp only [loadRecords, hp] at h
      cases h
    | ok p =>
      simp only [loadRecords, hp] at h
      cases hl : loadRecords (idx + 1) rs with
      | error e' => rw [hl] at h; cases h
      | ok ps' =>
        rw [hl] at h
        rcases List.mem_cons.mp hr with rfl | hr'
        · exact parseProduct_ok_not_missing hp
        · exact ih hl r hr'

theorem loadRecords_ok_of_wellFormed {records : List Row} :
    ∀ idx, (∀ r ∈ records, wellFormed r = true) →
      ∃ ps, loadRecords idx records = Except.ok ps ∧
        ps.length = records.length ∧
        ps.map (fun p => some p.code) = records.map Row.code := by
  induction records with
  | nil => intro idx _; exact ⟨[], rfl, rfl, rfl⟩
  | cons r rs ih =>
    intro idx hw
    obtain ⟨p, hp, hcode⟩ := parseProduct_isOk_of_wellFormed idx (hw r (by simp))
    obtain ⟨ps, hps, hlen, hmap⟩ := ih (idx + 1) (fun q hq => hw q (by simp [hq]))
    refine ⟨p :: ps, ?_, by simp [hlen], ?_⟩
    · simp only [loadRecords, hp, hps]
    · simp [hmap, hcode]

theorem loadRecords_append_error {r : Row} {e : LoadError} (post : List Row) :
    ∀ (pre : List Row) (idx : Nat), (∀ q ∈ pre, wellFormed q = true) →
      parseProduct (idx + pre.length) r = Except.error e →
      loadRecords idx (pre ++ r :: post) = Except.error e := by
  intro pre
  induction pre with
  | nil =>
    intro idx _ hr
    simp only [List.length_nil, Nat.add_zero] at hr
    simp only [List.nil_append, loadRecords, hr]
  | cons q qs ih =>
    intro idx hw hr
    obtain ⟨p, hp, _⟩ := parseProduct_isOk_of_wellFormed idx (hw q (by simp))
    have hr' : parseProduct ((idx + 1) + qs.length) r = Except.error e := by
      have harith : (idx + 1) + qs.length = idx + (q :: qs).length := by
        simp [List.length_cons]; omega
      rw [harith]; exact hr
    have htail := ih (idx + 1) (fun x hx => hw x (by simp [hx])) hr'
    simp only [List.cons_append, loadRecords, List.append_eq, hp, htail]

end WherexMass

/-! ### Claim C1 — per-submission failure handling in mp_bot -/

/-- Claim C1 (counterexample): when the adapter raises for the matched
product `A1`, `process_opportunities` still writes a log record for `A1`
(the exception is swallowed inside `postulate` and `register_postulation`
runs unconditionally), so "writes no log record for that product" is false
on the code. -/
theorem C1_counterexample :
    failAll "A1" = false
    ∧ (MpBot.process_opportunities failAll ["se requiere detergente"] plDetergente).log
        = [{ codigo := "A1", descripcion := "detergente", precio := "10000",
             status := "Postulado en MP" }]
    ∧ (MpBot.process_opportunities failAll ["se requiere detergente"] plDetergente).reported
        = ["A1"] := by decide

/-- Claim C1 (amended): when the submission step for the matched product
fails, the orchestrator reports the failure and continues with the
remaining opportunities — the run still processes the rest and terminates
— but a log record for the failed product is nonetheless appended. -/
theorem C1_amended (submitOk : String → Bool) (nombre : String) (rest : List String)
    (pl : List ProdRow) (prod : ProdRow)
    (hmatch : pl.find? (descMatches nombre) = some prod)
    (hfail : submitOk prod.codigo = false) :
    (MpBot.process_opportunities submitOk (nombre :: rest) pl).reported
        = prod.codigo :: (MpBot.process_opportunities submitOk rest pl).reported
    ∧ (MpBot.process_opportunities submitOk (nombre :: rest) pl).log
        = MpBot.register_postulation prod
            :: (MpBot.process_opportunities submitOk rest pl).log := by
  constructor <;> simp [MpBot.process_opportunities, hmatch, MpBot.postulate, hfail]

/-- Claim C1 (witness): `C1_amended` at a concrete failing run. -/
theorem C1_witness :
    plDetergente.find? (descMatches "se requiere detergente")
        = some { codigo := "A1", descripcion := "detergente", precio := "10000" }
    ∧ ((MpBot.process_opportunities failAll ["se requiere detergente"] plDetergente).reported
        = "A1" :: (MpBot.process_opportunities failAll [] plDetergente).reported
      ∧ (MpBot.process_opportunities failAll ["se requiere detergente"] plDetergente).log
        = MpBot.register_postulation
              { codigo := "A1", descripcion := "detergente", precio := "10000" }
            :: (MpBot.process_opportunities failAll [] plDetergente).log) :=
  ⟨by decide,
    C1_amended failAll "se requiere detergente" [] plDetergente
      { codigo := "A1", descripcion := "detergente", precio := "10000" } (by decide) rfl⟩

/-! ### Claim C2 — configuration precedence -/

/-- Claim C2 (counterexample): `PRICE_LIST_PATH` is present both in the
environment and in `config.toml`, and the loaded configuration contains
the file value, not the environment value. -/
theorem C2_counterexample :
    envPriceOnly "PRICE_LIST_PATH" = some "env/lista.csv"
    ∧ tomlPaths.data = some { price_list_path := some "toml/lista.csv" }
    ∧ (MpBot.load_config envPriceOnly (some tomlPaths)).PRICE_LIST_PATH = "toml/lista.csv"
    ∧ (MpBot.load_config envPriceOnly (some tomlPaths)).PRICE_LIST_PATH ≠ "env/lista.csv" := by
  decide

/-- Claim C2 (amended): a non-empty environment value takes precedence
over the file for the credential and sheet keys (`MP_USER`, `MP_PASS`,
`SHEETS_ID`), while for `PRICE_LIST_PATH` and `TECH_SHEET_DIR` a value
present in `config.toml` takes precedence over the environment. -/
theorem C2_amended (getenv : String → Option String) (td : MpBot.TomlData)
    (u pw sid plp tsd : String)
    (hu : getenv "MP_USER" = some u) (hu' : u ≠ "")
    (hp : getenv "MP_PASS" = some pw) (hp' : pw ≠ "")
    (hs : getenv "SHEETS_ID" = some sid) (hs' : sid ≠ "")
    (hd : td.data = some { price_list_path := some plp })
    (hf : td.files = some { tech_sheet_dir := some tsd }) :
    (MpBot.load_config getenv (some td)).MP_USER = some u
    ∧ (MpBot.load_config getenv (some td)).MP_PASS = some pw
    ∧ (MpBot.load_config getenv (some td)).SHEETS_ID = some sid
    ∧ (MpBot.load_config getenv (some td)).PRICE_LIST_PATH = plp
    ∧ (MpBot.load_config getenv (some td)).TECH_SHEET_DIR = tsd := by
  obtain ⟨m, sh, da, fi⟩ := td
  simp only at hd hf
  subst hd; subst hf
  cases m <;> cases sh <;>
    simp [MpBot.load_config, hu, hp, hs, pyOr, pyTruthy, hu', hp', hs']

/-- Claim C2 (witness): `C2_amended` at a concrete environment and file. -/
theorem C2_witness :
    (MpBot.load_config envFullMp (some tomlFullMp)).MP_USER = some "user-env"
    ∧ (MpBot.load_config envFullMp (some tomlFullMp)).MP_PASS = some "pass-env"
    ∧ (MpBot.load_config envFullMp (some tomlFullMp)).SHEETS_ID = some "sheet-env"
    ∧ (MpBot.load_config envFullMp (some tomlFullMp)).PRICE_LIST_PATH = "toml/lista.csv"
    ∧ (MpBot.load_config envFullMp (some tomlFullMp)).TECH_SHEET_DIR = "toml/fichas" :=
  C2_amended envFullMp tomlFullMp "user-env" "pass-env" "sheet-env"
    "toml/lista.csv" "toml/fichas"
    (by decide) (by decide) (by decide) (by decide) (by decide) (by decide) rfl rfl

/-! ### Claim C3 — price validation in the catalog loader -/

/-- Claim C3 (counterexample): a record whose price field is the negative
decimal `-5` loads successfully and yields a product with a negative
price, so "fails with MalformedRecord on a negative price" is false on
the code. -/
theorem C3_counterexample :
    WherexMass.load_price_list ".csv" [rowNeg] = Except.ok [prodNeg]
    ∧ prodNeg.price < 0 := by decide

/-- Claim C3 (amended): the loader fails (with the `ValueError` raised by
`float`) on any record whose price field does not parse as a decimal at
all; no sign check is performed, so negative prices are accepted. -/
theorem C3_amended (pre : List WherexMass.Row) (r : WherexMass.Row)
    (post : List WherexMass.Row) (s : String)
    (hpre : ∀ q ∈ pre, WherexMass.wellFormed q = true)
    (hc : r.code.isSome = true) (hd : r.description.isSome = true)
    (hb : r.brand.isSome = true) (hk : r.category.isSome = true)
    (hs : r.price = some s) (hbad : pyFloat s = none) :
    WherexMass.load_price_list ".csv" (pre ++ r :: post)
      = Except.error (.valueError s pre.length) := by
  obtain ⟨c, hc⟩ := Option.isSome_iff_exists.mp hc
  obtain ⟨d, hd⟩ := Option.isSome_iff_exists.mp hd
  obtain ⟨b, hb⟩ := Option.isSome_iff_exists.mp hb
  obtain ⟨k, hk⟩ := Option.isSome_iff_exists.mp hk
  have hpe : WherexMass.parseProduct pre.length r
      = Except.error (.valueError s pre.length) := by
    simp [WherexMass.parseProduct, hc, hd, hb, hk, hs, hbad]
  have hl := WherexMass.loadRecords_append_error post pre 0 hpre (by simpa using hpe)
  have hcsv : pyLower ".csv" = ".csv" := by decide
  simp [WherexMass.load_price_list, hcsv, hl]

/-- Claim C3 (witness): `C3_amended` at a record whose price is `"abc"`. -/
theorem C3_witness :
    rowBadPrice.price = some "abc" ∧ pyFloat "abc" = none
    ∧ WherexMass.load_price_list ".csv" [rowBadPrice]
        = Except.error (.valueError "abc" 0) :=
  ⟨rfl, by decide,
    C3_amended [] rowBadPrice [] "abc" (by simp) (by decide) (by decide) (by decide)
      (by decide) rfl (by decide)⟩

/-! ### Claim C4 — one submission per matched product? -/

/-- Claim C4 (counterexample): the opportunity matches both catalog
products, yet `procesar_oportunidades` submits and logs only the first
one (`break` after the first match), so "one SubmissionRecord per matched
product" is false on the code. -/
theorem C4_counterexample :
    descMatches "se requiere detergente y cloro"
        { codigo := "A1", descripcion := "detergente", precio := "1000" } = true
    ∧ descMatches "se requiere detergente y cloro"
        { codigo := "B2", descripcion := "cloro", precio := "2000" } = true
    ∧ WherexBot.procesar_oportunidades ["se requiere detergente y cloro"] plDetergenteCloro
        = [{ codigo := "A1", descripcion := "detergente", precio := "1000",
             status := "Postulado en Wherex" }] := by decide

/-- Claim C4 (amended): for every opportunity the orchestrator submits at
most one offer: exactly one log row per opportunity that matches at least
one product, recording the first matching product in price-list order. -/
theorem C4_amended (opps : List String) (pl : List ProdRow) :
    WherexBot.procesar_oportunidades opps pl
      = opps.filterMap
          (fun nombre =>
            (pl.find? (descMatches nombre)).map WherexBot.registrar_postulacion) := by
  induction opps with
  | nil => rfl
  | cons n rest ih =>
    cases h : pl.find? (descMatches n) <;>
      simp [WherexBot.procesar_oportunidades, h, ih, List.filterMap_cons]

/-! ### Claim C5 — the matching relation -/

/-- Claim C5 (counterexample): the opportunity text is a case-insensitive
substring of the product description, yet the matcher returns nothing —
the symmetric matching direction is not implemented. -/
theorem C5_counterexample :
    pyIn (pyLower "detergente industrial") (pyLower prodLargo.description) = true
    ∧ WherexMass.find_matching_products ["detergente industrial"] [prodLargo] = [] := by
  decide

/-- Claim C5 (amended): a product is in the matcher's result iff its
lowered `code` or lowered `description` occurs as a substring of the
lowered opportunity text; the reverse direction (text inside the
description) never matches on its own. -/
theorem C5_amended (t : String) (catalog : List WherexMass.Product)
    (p : WherexMass.Product) :
    p ∈ WherexMass.find_matching_products [t] catalog
      ↔ p ∈ catalog ∧
          (pyIn (pyLower p.code) (pyLower t) = true
           ∨ pyIn (pyLower p.description) (pyLower t) = true) := by
  simp [WherexMass.find_matching_products, List.mem_filter]

/-! ### Claim C6 — successful loads preserve count and codes -/

/-- Claim C6: for a well-formed catalog, `load_price_list` returns one
product per record, with exactly the input codes in file order. -/
theorem C6_load_well_formed (suffix : String) (records : List WherexMass.Row)
    (hs : pyLower suffix = ".csv" ∨ pyLower suffix = ".json")
    (hw : ∀ r ∈ records, WherexMass.wellFormed r = true) :
    ∃ ps, WherexMass.load_price_list suffix records = Except.ok ps
      ∧ ps.length = records.length
      ∧ ps.map (fun p => some p.code) = records.map WherexMass.Row.code := by
  obtain ⟨ps, hps, hlen, hmap⟩ := WherexMass.loadRecords_ok_of_wellFormed 0 hw
  rcases hs with hs | hs <;>
    exact ⟨ps, by simp [WherexMass.load_price_list, hs, hps], hlen, hmap⟩

/-- Claim C6 (witness): `C6_load_well_formed` at a one-row CSV catalog. -/
theorem C6_witness :
    (pyLower ".csv" = ".csv" ∨ pyLower ".csv" = ".json")
    ∧ (∀ r ∈ [rowOk], WherexMass.wellFormed r = true)
    ∧ ∃ ps, WherexMass.load_price_list ".csv" [rowOk] = Except.ok ps
        ∧ ps.length = [rowOk].length
        ∧ ps.map (fun p => some p.code) = [rowOk].map WherexMass.Row.code :=
  ⟨Or.inl (by decide), by decide,
    C6_load_well_formed ".csv" [rowOk] (Or.inl (by decide)) (by decide)⟩

/-! ### Claim C7 — missing required fields abort the load -/

/-- Claim C7: a catalog containing a record with a missing required field
never loads: the loader fails with a record-level error (`KeyError` /
`ValueError`, the spec's `MalformedRecord`), and — returning `Except` —
yields no partial product sequence. -/
theorem C7_missing_field_aborts (suffix : String) (records : List WherexMass.Row)
    (hs : pyLower suffix = ".csv" ∨ pyLower suffix = ".json")
    (hbad : ∃ r ∈ records, WherexMass.missingRequiredField r = true) :
    ∃ e, WherexMass.load_price_list suffix records = Except.error e
      ∧ e.isMalformedRecord = true := by
  have hload : WherexMass.load_price_list suffix records
      = WherexMass.loadRecords 0 records := by
    rcases hs with hs | hs <;> simp [WherexMass.load_price_list, hs]
  rw [hload]
  cases h : WherexMass.loadRecords 0 records with
  | ok ps =>
    obtain ⟨r, hr, hmiss⟩ := hbad
    have hno := WherexMass.loadRecords_ok_not_missing h r hr
    rw [hno] at hmiss
    cases hmiss
  | error e => exact ⟨e, rfl, WherexMass.loadRecords_error_isMalformed h⟩

/-- Claim C7 (witness): `C7_missing_field_aborts` at a record missing
`brand`. -/
theorem C7_witness :
    (∃ r ∈ [rowMissingBrand], WherexMass.missingRequiredField r = true)
    ∧ ∃ e, WherexMass.load_price_list ".csv" [rowMissingBrand] = Except.error e
        ∧ e.isMalformedRecord = true :=
  ⟨⟨rowMissingBrand, by simp, by decide⟩,
    C7_missing_field_aborts ".csv" [rowMissingBrand] (Or.inl (by decide))
      ⟨rowMissingBrand, by simp, by decide⟩⟩

/-! ### Claim C8 — unsupported extensions fail before the network -/

/-- Claim C8: an extension other than `.csv` / `.json`
(case-insensitively) makes `load_price_list` raise the unsupported-format
`ValueError`, and in `main` this happens before the browser is launched
and before login is attempted. -/
theorem C8_unsupported_extension (getenv : String → Option String) (suffix : String)
    (records : List WherexMass.Row)
    (h1 : pyLower suffix ≠ ".csv") (h2 : pyLower suffix ≠ ".json") :
    WherexMass.load_price_list suffix records
        = Except.error (.unsupportedFormat suffix)
    ∧ WherexMass.Event.browserLaunch ∉ (WherexMass.main getenv suffix records).events
    ∧ WherexMass.Event.loginAttempt ∉ (WherexMass.main getenv suffix records).events := by
  have hload : WherexMass.load_price_list suffix records
      = Except.error (.unsupportedFormat suffix) := by
    simp [WherexMass.load_price_list, h1, h2]
  refine ⟨hload, ?_, ?_⟩ <;>
    · simp only [WherexMass.main, hload]
      split <;> simp

/-- Claim C8 (witness): `C8_unsupported_extension` at a `.txt` path. -/
theorem C8_witness :
    pyLower ".txt" ≠ ".csv" ∧ pyLower ".txt" ≠ ".json"
    ∧ WherexMass.load_price_list ".txt" [] = Except.error (.unsupportedFormat ".txt")
    ∧ WherexMass.Event.browserLaunch ∉ (WherexMass.main envCreds ".txt" []).events
    ∧ WherexMass.Event.loginAttempt ∉ (WherexMass.main envCreds ".txt" []).events :=
  ⟨by decide, by decide,
    (C8_unsupported_extension envCreds ".txt" [] (by decide) (by decide)).1,
    (C8_unsupported_extension envCreds ".txt" [] (by decide) (by decide)).2.1,
    (C8_unsupported_extension envCreds ".txt" [] (by decide) (by decide)).2.2⟩

/-! ### Claim C9 — case-insensitive matching -/

/-- Claim C9: two opportunity texts with the same lowering produce
identical matcher results. -/
theorem C9_match_case_insensitive (t₁ t₂ : String)
    (catalog : List WherexMass.Product) (h : pyLower t₁ = pyLower t₂) :
    WherexMass.find_matching_products [t₁] catalog
      = WherexMass.find_matching_products [t₂] catalog := by
  simp only [WherexMass.find_matching_products, h]

/-- Claim C9 (witness): `C9_match_case_insensitive` on the spec's example
pair of texts. -/
theorem C9_witness :
    pyLower "DETERGENTE 5L" = pyLower "detergente 5l"
    ∧ WherexMass.find_matching_products ["DETERGENTE 5L"] [prodLargo]
        = WherexMass.find_matching_products ["detergente 5l"] [prodLargo] :=
  ⟨by decide,
    C9_match_case_insensitive "DETERGENTE 5L" "detergente 5l" [prodLargo] (by decide)⟩

/-! ### Claim C10 — missing credentials abort before load and network -/

/-- Claim C10: when `WHEREX_USERNAME` or `WHEREX_PASSWORD` is unset or
empty, `main` raises the `RuntimeError` and performs no other step: the
catalog load is never attempted and no browser session is opened. -/
theorem C10_missing_credentials (getenv : String → Option String) (suffix : String)
    (records : List WherexMass.Row)
    (h : pyTruthy (getenv "WHEREX_USERNAME") = false
         ∨ pyTruthy (getenv "WHEREX_PASSWORD") = false) :
    (WherexMass.main getenv suffix records).outcome
        = WherexMass.MainOutcome.runtimeError
    ∧ (WherexMass.main getenv suffix records).events = [] := by
  rcases h with h | h <;> constructor <;> simp [WherexMass.main, h]

/-- Claim C10 (witness): `C10_missing_credentials` on an empty
environment. -/
theorem C10_witness :
    (pyTruthy (envEmpty "WHEREX_USERNAME") = false
      ∨ pyTruthy (envEmpty "WHEREX_PASSWORD") = false)
    ∧ (WherexMass.main envEmpty ".csv" [rowOk]).outcome
        = WherexMass.MainOutcome.runtimeError
    ∧ (WherexMass.main envEmpty ".csv" [rowOk]).events = [] :=
  ⟨Or.inl (by decide),
    (C10_missing_credentials envEmpty ".csv" [rowOk] (Or.inl (by decide))).1,
    (C10_missing_credentials envEmpty ".csv" [rowOk] (Or.inl (by decide))).2⟩
